import Mathlib

/-!
Shallow embedding of `tfx/examples/chicago_taxi_pipeline/taxi_pipeline_importer.py`.

The Python file is declarative glue: it instantiates prebuilt TFX components with
configuration values, wires component outputs to component inputs, bundles the
components into a `pipeline.Pipeline` object, and (when run as `__main__`) hands
that object to `BeamDagRunner().run`.

The embedding mirrors this construction:
* each TFX component instantiation becomes a `Component` value holding its
  configuration (`ComponentConfig`) and its input wiring (a list of
  keyword/channel pairs);
* `x.outputs['key']` in Python becomes `ChannelV.output ⟨id, key⟩`, where `id`
  is the Python local-variable name of the producing component (the names are
  pairwise distinct, so they identify the producer unambiguously);
* protobuf / TFMA configuration messages become plain structures; their float
  fields (`0.6`, `-1e-10`) are represented as exact rationals;
* ambient process state is made explicit: every function that in Python could
  read `os.environ` receives an `Env` argument, and `os.environ['HOME']`
  becomes a lookup that yields `none` when the variable is absent (Python would
  raise `KeyError`);
* running the script as `__main__` is embedded as `main_trace`, which records
  the externally visible calls the script makes (the logging-verbosity call and
  the list of pipelines passed to the runner's `run` method); the script never
  reads `sys.argv`, which the embedding records by giving `main_trace` an
  `argv` parameter that its body ignores.
-/

namespace TaxiPipelineImporter

/-- The process environment (`os.environ`): a partial map from variable names
to values. -/
def Env : Type := String → Option String

/-- Python `os.path.join` for two POSIX path segments: an absolute second
segment replaces the first; otherwise the segments are concatenated with a
single `/` separator (no separator is added after an empty or `/`-terminated
first segment). -/
def os_path_join (a b : String) : String :=
  if b.startsWith "/" then b
  else if a == "" || a.endsWith "/" then a ++ b
  else a ++ "/" ++ b

/-- The component classes named in the source file's imports and used in
`_create_pipeline`. -/
inductive ComponentType
  | CsvExampleGen
  | StatisticsGen
  | SchemaGen
  | ExampleValidator
  | Transform
  | Trainer
  | Evaluator
  | Pusher
  | ResolverNode
  | ImporterNode
deriving DecidableEq

/-- A reference to one named output of a component instance:
`⟨"trainer", "model"⟩` stands for Python's `trainer.outputs['model']`. -/
structure OutputRef where
  producer : String
  key : String
deriving DecidableEq

/-- A channel value passed as a component input: either some component's
output, or a fresh typed channel (`Channel(type=...)`). -/
inductive ChannelV
  | output (ref : OutputRef)
  | fresh (artifact_type : String)
deriving DecidableEq

/-- `tfma.MetricDirection`. -/
inductive MetricDirection
  | UNKNOWN
  | LOWER_IS_BETTER
  | HIGHER_IS_BETTER
deriving DecidableEq

/-- `tfma.GenericValueThreshold`: only the field set in the source is kept. -/
structure GenericValueThreshold where
  lower_bound : Option ℚ
deriving DecidableEq

/-- `tfma.GenericChangeThreshold`. -/
structure GenericChangeThreshold where
  direction : MetricDirection
  absolute : Option ℚ
deriving DecidableEq

/-- `tfma.config.MetricThreshold`. -/
structure MetricThreshold where
  value_threshold : Option GenericValueThreshold
  change_threshold : Option GenericChangeThreshold
deriving DecidableEq

/-- `tfma.ModelSpec`. -/
structure ModelSpec where
  signature_name : String
deriving DecidableEq

/-- `tfma.SlicingSpec` (an empty `feature_keys` list is the default slice). -/
structure SlicingSpec where
  feature_keys : List String
deriving DecidableEq

/-- `tfma.MetricsSpec`: its `thresholds` dict, as an association list. -/
structure MetricsSpec where
  thresholds : List (String × MetricThreshold)
deriving DecidableEq

/-- `tfma.EvalConfig`. -/
structure EvalConfig where
  model_specs : List ModelSpec
  slicing_specs : List SlicingSpec
  metrics_specs : List MetricsSpec
deriving DecidableEq

/-- `trainer_pb2.TrainArgs`. -/
structure TrainArgs where
  num_steps : Nat
deriving DecidableEq

/-- `trainer_pb2.EvalArgs`. -/
structure EvalArgs where
  num_steps : Nat
deriving DecidableEq

/-- `pusher_pb2.PushDestination.Filesystem`. -/
structure PushDestinationFilesystem where
  base_directory : String
deriving DecidableEq

/-- `pusher_pb2.PushDestination`. -/
structure PushDestination where
  filesystem : PushDestinationFilesystem
deriving DecidableEq

/-- The non-channel constructor arguments of each component instantiation in
the source file, one constructor per component class used. -/
inductive ComponentConfig
  | csvExampleGen (input_base : String)
  | statisticsGen
  | importerNode (instance_name : String) (source_uri : String)
      (artifact_type : String)
  | schemaGen (infer_feature_shape : Bool)
  | exampleValidator
  | transform (module_file : String)
  | trainer (module_file : String) (train_args : TrainArgs)
      (eval_args : EvalArgs)
  | resolverNode (instance_name : String) (resolver_class : String)
  | evaluator (eval_config : EvalConfig)
  | pusher (push_destination : PushDestination)
deriving DecidableEq

/-- A component instance: its identifier (the Python local-variable name of
the instance in `_create_pipeline`), its configuration, and its input wiring
(input keyword ↦ channel). -/
structure Component where
  id : String
  config : ComponentConfig
  inputs : List (String × ChannelV)
deriving DecidableEq

/-- The class of a component instance, read off from its configuration. -/
def Component.ctype (c : Component) : ComponentType :=
  match c.config with
  | .csvExampleGen _ => .CsvExampleGen
  | .statisticsGen => .StatisticsGen
  | .importerNode _ _ _ => .ImporterNode
  | .schemaGen _ => .SchemaGen
  | .exampleValidator => .ExampleValidator
  | .transform _ => .Transform
  | .trainer _ _ _ => .Trainer
  | .resolverNode _ _ => .ResolverNode
  | .evaluator _ => .Evaluator
  | .pusher _ => .Pusher

/-- Python `c.outputs['key']`: the channel carrying output `key` of `c`. -/
def Component.outputs (c : Component) (key : String) : ChannelV :=
  .output ⟨c.id, key⟩

/-- `metadata.sqlite_metadata_connection_config`: a metadata connection backed
by the sqlite database at the given path. -/
structure MetadataConnectionConfig where
  sqlite_filename_uri : String
deriving DecidableEq

def sqlite_metadata_connection_config (metadata_path : String) :
    MetadataConnectionConfig :=
  ⟨metadata_path⟩

/-- `pipeline.Pipeline`: the keyword arguments passed in the source file. -/
structure Pipeline where
  pipeline_name : String
  pipeline_root : String
  components : List Component
  enable_cache : Bool
  metadata_connection_config : MetadataConnectionConfig
  beam_pipeline_args : List String
deriving DecidableEq

/-! Module-level constants.  Those derived from `os.environ['HOME']` are
functions of the value `home` that the lookup returned. -/

def taxiPipelineName : String := "chicago_taxi_importer"

/-- `_taxi_root = os.path.join(os.environ['HOME'], 'taxi')`. -/
def taxiRoot (home : String) : String := os_path_join home "taxi"

/-- `_data_root = os.path.join(_taxi_root, 'data', 'simple')`. -/
def dataRoot (home : String) : String :=
  os_path_join (os_path_join (taxiRoot home) "data") "simple"

/-- `_module_file = os.path.join(_taxi_root, 'taxi_utils.py')`. -/
def moduleFile (home : String) : String :=
  os_path_join (taxiRoot home) "taxi_utils.py"

/-- `_serving_model_dir = os.path.join(_taxi_root, 'serving_model', _pipeline_name)`. -/
def servingModelDir (home : String) : String :=
  os_path_join (os_path_join (taxiRoot home) "serving_model") taxiPipelineName

/-- `_tfx_root = os.path.join(os.environ['HOME'], 'tfx')`. -/
def tfxRoot (home : String) : String := os_path_join home "tfx"

/-- `_pipeline_root = os.path.join(_tfx_root, 'pipelines', _pipeline_name)`. -/
def pipelineRoot (home : String) : String :=
  os_path_join (os_path_join (tfxRoot home) "pipelines") taxiPipelineName

/-- `_metadata_path = os.path.join(_tfx_root, 'metadata', _pipeline_name, 'metadata.db')`. -/
def metadataPath (home : String) : String :=
  os_path_join (os_path_join (os_path_join (tfxRoot home) "metadata")
    taxiPipelineName) "metadata.db"

/-- `_user_schema_path = os.path.join(_taxi_root, 'data', 'user_provided_schema')`. -/
def userSchemaPath (home : String) : String :=
  os_path_join (os_path_join (taxiRoot home) "data") "user_provided_schema"

/-- `_beam_pipeline_args`. -/
def beamPipelineArgs : List String :=
  ["--direct_running_mode=multi_processing", "--direct_num_workers=0"]

/-- The `tfma.EvalConfig` literal built inside `_create_pipeline`; it mentions
none of the function's parameters, so it is hoisted to a constant.  `0.6` is
`3/5` and `-1e-10` is `-1/10^10`. -/
def taxi_eval_config : EvalConfig :=
  { model_specs := [⟨"eval"⟩]
    slicing_specs := [⟨[]⟩, ⟨["trip_start_hour"]⟩]
    metrics_specs := [⟨[("accuracy",
      { value_threshold := some ⟨some (6/10 : ℚ)⟩
        change_threshold := some ⟨.HIGHER_IS_BETTER,
          some (-(1/10000000000) : ℚ)⟩ })]⟩] }

/-- `_create_pipeline`: builds the ten component instances and bundles them
into a `Pipeline`.  The `environ` argument makes the ambient process
environment explicit; the function's body never consults it, matching the
Python body, which reads no environment variable. -/
def _create_pipeline (environ : Env) (pipeline_name : String)
    (pipeline_root : String) (data_root : String) (user_schema_path : String)
    (module_file : String) (serving_model_dir : String)
    (metadata_path : String) (beam_pipeline_args : List String) : Pipeline :=
  let example_gen : Component :=
    { id := "example_gen", config := .csvExampleGen data_root, inputs := [] }
  let statistics_gen : Component :=
    { id := "statistics_gen", config := .statisticsGen
      inputs := [("examples", example_gen.outputs "examples")] }
  let user_schema_importer : Component :=
    { id := "user_schema_importer"
      config := .importerNode "import_user_schema" user_schema_path "Schema"
      inputs := [] }
  let schema_gen : Component :=
    { id := "schema_gen", config := .schemaGen false
      inputs := [("statistics", statistics_gen.outputs "statistics")] }
  let example_validator : Component :=
    { id := "example_validator", config := .exampleValidator
      inputs := [("statistics", statistics_gen.outputs "statistics"),
                 ("schema", user_schema_importer.outputs "result")] }
  let transform : Component :=
    { id := "transform", config := .transform module_file
      inputs := [("examples", example_gen.outputs "examples"),
                 ("schema", user_schema_importer.outputs "result")] }
  let trainer : Component :=
    { id := "trainer", config := .trainer module_file ⟨10000⟩ ⟨5000⟩
      inputs := [("transformed_examples",
                    transform.outputs "transformed_examples"),
                 ("schema", user_schema_importer.outputs "result"),
                 ("transform_graph", transform.outputs "transform_graph")] }
  let model_resolver : Component :=
    { id := "model_resolver"
      config := .resolverNode "latest_blessed_model_resolver"
        "LatestBlessedModelResolver"
      inputs := [("model", .fresh "Model"),
                 ("model_blessing", .fresh "ModelBlessing")] }
  let evaluator : Component :=
    { id := "evaluator", config := .evaluator taxi_eval_config
      inputs := [("examples", example_gen.outputs "examples"),
                 ("model", trainer.outputs "model"),
                 ("baseline_model", model_resolver.outputs "model")] }
  let pusher : Component :=
    { id := "pusher", config := .pusher ⟨⟨serving_model_dir⟩⟩
      inputs := [("model", trainer.outputs "model"),
                 ("model_blessing", evaluator.outputs "blessing")] }
  { pipeline_name := pipeline_name
    pipeline_root := pipeline_root
    components := [example_gen, statistics_gen, user_schema_importer,
                   schema_gen, example_validator, transform, trainer,
                   model_resolver, evaluator, pusher]
    enable_cache := true
    metadata_connection_config :=
      sqlite_metadata_connection_config metadata_path
    beam_pipeline_args := beam_pipeline_args }

/-- The externally visible calls the script makes when run as `__main__`:
the logging-verbosity call and the pipelines passed to `BeamDagRunner().run`. -/
structure MainTrace where
  verbosity_calls : List String
  runner_run_calls : List Pipeline
deriving DecidableEq

/-- Running the file as a standalone script (`__name__ == '__main__'`).
`os.environ['HOME']` is read at import time to build the module constants;
if `HOME` is unset Python raises `KeyError`, embedded as `none`.  The script
never reads `sys.argv`; the `argv` parameter is accordingly unused. -/
def main_trace (environ : Env) (argv : List String) : Option MainTrace :=
  match environ "HOME" with
  | none => none
  | some home =>
      some { verbosity_calls := ["INFO"]
             runner_run_calls :=
               [_create_pipeline environ taxiPipelineName (pipelineRoot home)
                 (dataRoot home) (userSchemaPath home) (moduleFile home)
                 (servingModelDir home) (metadataPath home)
                 beamPipelineArgs] }

/-! Auxiliary definitions used to state and prove the verification results. -/

/-- The nine component classes listed in the specification sentence
(`ImporterNode` is absent from that list). -/
def listedNineTypes : List ComponentType :=
  [.CsvExampleGen, .StatisticsGen, .SchemaGen, .ExampleValidator, .Transform,
   .Trainer, .Evaluator, .Pusher, .ResolverNode]

/-- An empty process environment. -/
def env0 : Env := fun _ => none

/-- A process environment in which only `HOME` is set, to `/root`. -/
def envHome : Env := fun k => if k == "HOME" then some "/root" else none

/-- The trace produced by running the script under `envHome`. -/
def mainTrace0 : MainTrace :=
  { verbosity_calls := ["INFO"]
    runner_run_calls :=
      [_create_pipeline envHome taxiPipelineName (pipelineRoot "/root")
        (dataRoot "/root") (userSchemaPath "/root") (moduleFile "/root")
        (servingModelDir "/root") (metadataPath "/root") beamPipelineArgs] }

/-- The `example_gen` component of the pipeline built with empty-string
arguments (used as a concrete instantiation point). -/
def exampleGenComp0 : Component :=
  { id := "example_gen", config := .csvExampleGen "", inputs := [] }

/-- `consumesFrom c d` holds when some input of `c` is an output of `d`:
the output-to-input edges declared between components. -/
def consumesFrom (c d : Component) : Bool :=
  c.inputs.any (fun kv =>
    match kv.2 with
    | .output ref => ref.producer == d.id
    | .fresh _ => false)

/-- The wiring signature of a component: its identifier and input channels
(the only data `consumesFrom` inspects). -/
def compSig (c : Component) : String × List (String × ChannelV) :=
  (c.id, c.inputs)

/-- `consumesFrom` expressed on wiring signatures. -/
def edgeSig (p q : String × List (String × ChannelV)) : Bool :=
  p.2.any (fun kv =>
    match kv.2 with
    | .output ref => ref.producer == q.1
    | .fresh _ => false)

/-- The wiring signatures of the ten components of the pipeline, which do not
depend on the arguments of `_create_pipeline`. -/
def taxiSigs : List (String × List (String × ChannelV)) :=
  [("example_gen", []),
   ("statistics_gen", [("examples", .output ⟨"example_gen", "examples"⟩)]),
   ("user_schema_importer", []),
   ("schema_gen", [("statistics", .output ⟨"statistics_gen", "statistics"⟩)]),
   ("example_validator",
     [("statistics", .output ⟨"statistics_gen", "statistics"⟩),
      ("schema", .output ⟨"user_schema_importer", "result"⟩)]),
   ("transform",
     [("examples", .output ⟨"example_gen", "examples"⟩),
      ("schema", .output ⟨"user_schema_importer", "result"⟩)]),
   ("trainer",
     [("transformed_examples", .output ⟨"transform", "transformed_examples"⟩),
      ("schema", .output ⟨"user_schema_importer", "result"⟩),
      ("transform_graph", .output ⟨"transform", "transform_graph"⟩)]),
   ("model_resolver",
     [("model", .fresh "Model"), ("model_blessing", .fresh "ModelBlessing")]),
   ("evaluator",
     [("examples", .output ⟨"example_gen", "examples"⟩),
      ("model", .output ⟨"trainer", "model"⟩),
      ("baseline_model", .output ⟨"model_resolver", "model"⟩)]),
   ("pusher",
     [("model", .output ⟨"trainer", "model"⟩),
      ("model_blessing", .output ⟨"evaluator", "blessing"⟩)])]

/-- A topological rank for the component identifiers, used only in the
acyclicity proof: every declared edge strictly increases it from producer to
consumer. -/
def rankId (i : String) : Nat :=
  if i = "statistics_gen" then 1
  else if i = "transform" then 1
  else if i = "schema_gen" then 2
  else if i = "example_validator" then 2
  else if i = "trainer" then 2
  else if i = "evaluator" then 3
  else if i = "pusher" then 4
  else 0

/-- The path-wiring property of a main-trace: its single runner call carries a
pipeline whose six configured filesystem paths are the stated `os.path.join`
chains under `home`, each sitting at the place fed by the corresponding
`_create_pipeline` parameter (`pipeline_root` in the pipeline record,
`metadata_path` in the metadata connection, `data_root` in `CsvExampleGen`,
`user_schema_path` in `ImporterNode`, `module_file` in `Transform` and
`Trainer`, `serving_model_dir` in `Pusher`). -/
def mainPathWiring (home : String) (t : MainTrace) : Prop :=
  ∃ p, t.runner_run_calls = [p] ∧
    p.pipeline_root =
      os_path_join (os_path_join (os_path_join home "tfx") "pipelines")
        "chicago_taxi_importer" ∧
    p.metadata_connection_config = sqlite_metadata_connection_config
      (os_path_join (os_path_join (os_path_join (os_path_join home "tfx")
        "metadata") "chicago_taxi_importer") "metadata.db") ∧
    (p.components.find? (fun c => c.id == "example_gen")).map Component.config
      = some (.csvExampleGen (os_path_join (os_path_join
          (os_path_join home "taxi") "data") "simple")) ∧
    (p.components.find?
        (fun c => c.id == "user_schema_importer")).map Component.config
      = some (.importerNode "import_user_schema" (os_path_join (os_path_join
          (os_path_join home "taxi") "data") "user_provided_schema")
          "Schema") ∧
    (p.components.find? (fun c => c.id == "transform")).map Component.config
      = some (.transform (os_path_join (os_path_join home "taxi")
          "taxi_utils.py")) ∧
    (p.components.find? (fun c => c.id == "trainer")).map Component.config
      = some (.trainer (os_path_join (os_path_join home "taxi")
          "taxi_utils.py") ⟨10000⟩ ⟨5000⟩) ∧
    (p.components.find? (fun c => c.id == "pusher")).map Component.config
      = some (.pusher ⟨⟨os_path_join (os_path_join (os_path_join home "taxi")
          "serving_model") "chicago_taxi_importer"⟩⟩)

/-! Verification results. -/

/-- Claim C1 fails as stated: in the pipeline built by `_create_pipeline`
(here at concrete empty-string arguments), the components list contains the
`user_schema_importer` component, whose class `ImporterNode` is not among the
nine listed framework types. -/
theorem taxi_C1_counterexample :
    ¬ (∀ c ∈ (_create_pipeline env0 "" "" "" "" "" "" "" []).components,
        c.ctype ∈ listedNineTypes) := by decide

/-- Claim C1 (amended): every element of the components list passed to
`pipeline.Pipeline` is an instance of one of ten framework types: the nine
listed ones or `ImporterNode`. -/
theorem taxi_C1_amended (environ : Env) (n r d u m s mp : String)
    (b : List String) :
    ((_create_pipeline environ n r d u m s mp b).components.all
      (fun c => decide (c.ctype ∈ listedNineTypes ∨ c.ctype = .ImporterNode)))
      = true := rfl

/-- Claim C2: for every choice of arguments, the Evaluator component's
configuration is the constant `taxi_eval_config`, whose metric thresholds
consist exactly of one threshold on `accuracy` with value-threshold lower
bound `0.6` and change-threshold direction `HIGHER_IS_BETTER` (with absolute
bound `-1e-10`). -/
theorem taxi_C2 (environ : Env) (n r d u m s mp : String)
    (b : List String) :
    (((_create_pipeline environ n r d u m s mp b).components.find?
        (fun c => c.id == "evaluator")).map Component.config)
      = some (.evaluator taxi_eval_config) ∧
    taxi_eval_config.metrics_specs = [⟨[("accuracy",
      { value_threshold := some ⟨some (0.6 : ℚ)⟩
        change_threshold := some ⟨.HIGHER_IS_BETTER,
          some (-(1e-10) : ℚ)⟩ })]⟩] := by
  refine ⟨rfl, ?_⟩
  norm_num [taxi_eval_config]

/-- Claim C3: `_beam_pipeline_args` has exactly two elements, and every
pipeline handed to the runner by the script carries exactly this list, same
elements in the same order, as its `beam_pipeline_args`. -/
theorem taxi_C3 :
    beamPipelineArgs.length = 2 ∧
    ∀ (environ : Env) (argv : List String) (t : MainTrace),
      main_trace environ argv = some t →
      t.runner_run_calls.map Pipeline.beam_pipeline_args
        = [beamPipelineArgs] := by
  refine ⟨rfl, ?_⟩
  intro environ argv t h
  unfold main_trace at h
  cases henv : environ "HOME" with
  | none => rw [henv] at h; exact absurd h (by simp)
  | some home =>
      rw [henv] at h
      injection h with h
      subst h
      rfl

/-- Witness for C3: instantiation under the environment `envHome`. -/
theorem taxi_C3_witness :
    mainTrace0.runner_run_calls.map Pipeline.beam_pipeline_args
      = [beamPipelineArgs] :=
  taxi_C3.2 envHome [] mainTrace0 rfl

/-- Claim C5: when the script runs as main under an environment with
`HOME = home`, its single runner call carries a pipeline in which the six
filesystem paths are derived by `os.path.join` chains under `home` and each
lands at the place fed by its corresponding `_create_pipeline` parameter. -/
theorem taxi_C5 (environ : Env) (argv : List String) (home : String)
    (t : MainTrace) (henv : environ "HOME" = some home)
    (hrun : main_trace environ argv = some t) :
    mainPathWiring home t := by
  unfold main_trace at hrun
  rw [henv] at hrun
  injection hrun with hrun
  subst hrun
  exact ⟨_, rfl, rfl, rfl, rfl, rfl, rfl, rfl, rfl⟩

/-- Witness for C5: instantiation under the environment `envHome`. -/
theorem taxi_C5_witness : mainPathWiring "/root" mainTrace0 :=
  taxi_C5 envHome [] "/root" mainTrace0 rfl rfl

/-- Claim C6: run as main under an environment with `HOME` set, the script
makes exactly one runner `run` call, on the pipeline built by
`_create_pipeline` from the module-level constants, and its behaviour does
not depend on the command-line arguments. -/
theorem taxi_C6 (environ : Env) (argv : List String) (home : String)
    (henv : environ "HOME" = some home) :
    ∃ t, main_trace environ argv = some t ∧
      t.runner_run_calls.length = 1 ∧
      t.runner_run_calls =
        [_create_pipeline environ taxiPipelineName (pipelineRoot home)
          (dataRoot home) (userSchemaPath home) (moduleFile home)
          (servingModelDir home) (metadataPath home) beamPipelineArgs] ∧
      main_trace environ argv = main_trace environ [] := by
  refine ⟨{ verbosity_calls := ["INFO"]
            runner_run_calls :=
              [_create_pipeline environ taxiPipelineName (pipelineRoot home)
                (dataRoot home) (userSchemaPath home) (moduleFile home)
                (servingModelDir home) (metadataPath home)
                beamPipelineArgs] }, ?_, rfl, rfl, rfl⟩
  unfold main_trace
  rw [henv]

/-- Witness for C6: instantiation under `envHome` with a nonempty argv. -/
theorem taxi_C6_witness :
    ∃ t, main_trace envHome ["--flag"] = some t ∧
      t.runner_run_calls.length = 1 ∧
      t.runner_run_calls =
        [_create_pipeline envHome taxiPipelineName (pipelineRoot "/root")
          (dataRoot "/root") (userSchemaPath "/root") (moduleFile "/root")
          (servingModelDir "/root") (metadataPath "/root")
          beamPipelineArgs] ∧
      main_trace envHome ["--flag"] = main_trace envHome [] :=
  taxi_C6 envHome ["--flag"] "/root" rfl

/-- Claim C7: for every choice of arguments, the Pusher component's `model`
input is the Trainer's `model` output, its `model_blessing` input is the
Evaluator's `blessing` output, and its push destination's filesystem base
directory is the `serving_model_dir` argument; the referenced producers are
the pipeline's Trainer and Evaluator components. -/
theorem taxi_C7 (environ : Env) (n r d u m s mp : String)
    (b : List String) :
    ((_create_pipeline environ n r d u m s mp b).components.find?
        (fun c => c.id == "pusher"))
      = some { id := "pusher", config := .pusher ⟨⟨s⟩⟩
               inputs := [("model", .output ⟨"trainer", "model"⟩),
                          ("model_blessing",
                            .output ⟨"evaluator", "blessing"⟩)] } ∧
    ((_create_pipeline environ n r d u m s mp b).components.find?
        (fun c => c.id == "trainer")).map Component.ctype
      = some .Trainer ∧
    ((_create_pipeline environ n r d u m s mp b).components.find?
        (fun c => c.id == "evaluator")).map Component.ctype
      = some .Evaluator :=
  ⟨rfl, rfl, rfl⟩

/-- Claim C8: for every choice of arguments, the `schema` input of each of
ExampleValidator, Transform and Trainer is the ImporterNode's `result`
output, and no component input in the pipeline consumes any output of
`schema_gen`. -/
theorem taxi_C8 (environ : Env) (n r d u m s mp : String)
    (b : List String) :
    ((_create_pipeline environ n r d u m s mp b).components.find?
        (fun c => c.id == "example_validator")).map
        (fun c => c.inputs.lookup "schema")
      = some (some (.output ⟨"user_schema_importer", "result"⟩)) ∧
    ((_create_pipeline environ n r d u m s mp b).components.find?
        (fun c => c.id == "transform")).map
        (fun c => c.inputs.lookup "schema")
      = some (some (.output ⟨"user_schema_importer", "result"⟩)) ∧
    ((_create_pipeline environ n r d u m s mp b).components.find?
        (fun c => c.id == "trainer")).map
        (fun c => c.inputs.lookup "schema")
      = some (some (.output ⟨"user_schema_importer", "result"⟩)) ∧
    ((_create_pipeline environ n r d u m s mp b).components.all
        (fun c => c.inputs.all (fun kv =>
          match kv.2 with
          | .output ref => ref.producer != "schema_gen"
          | .fresh _ => true))) = true :=
  ⟨rfl, rfl, rfl, rfl⟩

/-- Claim C9: for every choice of arguments, the returned pipeline has
`enable_cache = true` and a sqlite metadata connection configured from the
`metadata_path` argument. -/
theorem taxi_C9 (environ : Env) (n r d u m s mp : String)
    (b : List String) :
    (_create_pipeline environ n r d u m s mp b).enable_cache = true ∧
    (_create_pipeline environ n r d u m s mp b).metadata_connection_config
      = sqlite_metadata_connection_config mp :=
  ⟨rfl, rfl⟩

/-- Claim C10: `_create_pipeline` is a pure function of its eight declared
arguments: its result is independent of the ambient process environment, the
only hidden input a Python function body could consult here, so two calls
with equal arguments yield structurally identical pipelines. -/
theorem taxi_C10 (environ environ' : Env) (n r d u m s mp : String)
    (b : List String) :
    _create_pipeline environ n r d u m s mp b
      = _create_pipeline environ' n r d u m s mp b :=
  rfl

/-- `consumesFrom` only inspects the wiring signatures of its arguments. -/
theorem consumesFrom_eq_edgeSig (c d : Component) :
    consumesFrom c d = edgeSig (compSig c) (compSig d) :=
  rfl

/-- The wiring signatures of the pipeline's components are `taxiSigs`,
independently of the arguments of `_create_pipeline`. -/
theorem components_sig (environ : Env) (n r d u m s mp : String)
    (b : List String) :
    ((_create_pipeline environ n r d u m s mp b).components.map compSig)
      = taxiSigs :=
  rfl

/-- Every declared output-to-input edge strictly increases the topological
rank from the producing signature to the consuming one. -/
theorem edge_rank :
    ∀ p ∈ taxiSigs, ∀ q ∈ taxiSigs,
      edgeSig p q = true → rankId q.1 < rankId p.1 := by
  decide

/-- Along a chain whose relation strictly increases a rank (on the elements
involved), the rank of the start is below the rank of the last element. -/
theorem chain_lt_getLast {α : Type} (f : α → Nat) (R : α → α → Prop) :
    ∀ (l : List α) (a b : α),
      (∀ x y, R x y → x ∈ a :: l → y ∈ a :: l → f x < f y) →
      List.Chain R a l → l.getLast? = some b → f a < f b := by
  intro l
  induction l with
  | nil => intro a b _ _ hlast; simp at hlast
  | cons x xs ih =>
      intro a b hlt hchain hlast
      rw [List.chain_cons] at hchain
      obtain ⟨hax, hxxs⟩ := hchain
      have hfax : f a < f x := hlt a x hax (by simp) (by simp)
      cases xs with
      | nil =>
          simp at hlast
          subst hlast
          exact hfax
      | cons y ys =>
          have hxb : f x < f b := by
            refine ih x b ?_ hxxs (by simpa using hlast)
            intro u v huv hu hv
            exact hlt u v huv (List.mem_cons_of_mem a hu)
              (List.mem_cons_of_mem a hv)
          exact hfax.trans hxb

/-- Claim C4: the output-to-input edges between the components of any
pipeline returned by `_create_pipeline` form a DAG: no sequence of its
components `c1, ..., cn, c1` has each member consuming an output of the
previous one. -/
theorem taxi_C4 (environ : Env) (n r d u m s mp : String) (b : List String)
    (c1 : Component) (rest : List Component)
    (hmem : ∀ c ∈ c1 :: rest,
      c ∈ (_create_pipeline environ n r d u m s mp b).components) :
    ¬ List.Chain (fun x y => consumesFrom y x = true) c1 (rest ++ [c1]) := by
  intro hchain
  have hsig : ∀ c ∈ c1 :: rest, compSig c ∈ taxiSigs := by
    intro c hc
    rw [← components_sig environ n r d u m s mp b]
    exact List.mem_map_of_mem compSig (hmem c hc)
  have hlt : ∀ x y, consumesFrom y x = true →
      x ∈ c1 :: (rest ++ [c1]) → y ∈ c1 :: (rest ++ [c1]) →
      rankId (compSig x).1 < rankId (compSig y).1 := by
    intro x y hxy hx hy
    have hx' : x ∈ c1 :: rest := by
      rcases List.mem_cons.1 hx with h | h
      · exact h ▸ List.mem_cons_self c1 rest
      · rcases List.mem_append.1 h with h' | h'
        · exact List.mem_cons_of_mem c1 h'
        · simp at h'
          exact h' ▸ List.mem_cons_self c1 rest
    have hy' : y ∈ c1 :: rest := by
      rcases List.mem_cons.1 hy with h | h
      · exact h ▸ List.mem_cons_self c1 rest
      · rcases List.mem_append.1 h with h' | h'
        · exact List.mem_cons_of_mem c1 h'
        · simp at h'
          exact h' ▸ List.mem_cons_self c1 rest
    have := edge_rank (compSig y) (hsig y hy') (compSig x) (hsig x hx')
    rw [consumesFrom_eq_edgeSig] at hxy
    exact this hxy
  have := chain_lt_getLast (fun c => rankId (compSig c).1)
    (fun x y => consumesFrom y x = true) (rest ++ [c1]) c1 c1 hlt hchain
    (List.getLast?_concat rest)
  exact lt_irrefl _ this

/-- Witness for C4: the singleton sequence at the `example_gen` component of
the concretely instantiated pipeline. -/
theorem taxi_C4_witness :
    (∀ c ∈ exampleGenComp0 :: ([] : List Component),
      c ∈ (_create_pipeline env0 "" "" "" "" "" "" "" []).components) ∧
    ¬ List.Chain (fun x y => consumesFrom y x = true) exampleGenComp0
      ([] ++ [exampleGenComp0]) := by
  have h : ∀ c ∈ exampleGenComp0 :: ([] : List Component),
      c ∈ (_create_pipeline env0 "" "" "" "" "" "" "" []).components := by
    decide
  exact ⟨h, taxi_C4 env0 "" "" "" "" "" "" "" [] exampleGenComp0 [] h⟩

end TaxiPipelineImporter
